import Mathlib

/-!
Verification of the FHITL client-side data-consistency layer.

This development shallowly embeds the cache-mutation logic of the
repository (TanStack-Query based hooks in `usePrincipleMutations`,
`useSampleMutations`, the debounced opinion editor in `DataRowItem`,
the query-client retry configuration in `App.tsx`, and the axios
response interceptor in `api/client.ts`) and proves or refutes the
specification's testable properties against it.
-/

namespace FHITL

/-- A principle (label definition), `src/types.ts`.
Identity is `id`; the remaining fields are updated via partial patches. -/
structure Principle where
  id : Nat
  label_name : String
  definition : String
  inclusion_criteria : String
  exclusion_criteria : String
deriving DecidableEq, Repr

/-- Partial update payload for PATCH `/principles/{id}`
(`UpdatePrincipleRequest` in `api/types.ts`): every field optional. -/
structure UpdatePrincipleRequest where
  label_name : Option String := none
  definition : Option String := none
  inclusion_criteria : Option String := none
  exclusion_criteria : Option String := none
deriving DecidableEq, Repr

/-- JS object spread `{ ...p, ...updates }`: a field present in `updates`
overrides the field of `p`, absent fields keep `p`'s value. -/
def mergeUpdates (p : Principle) (u : UpdatePrincipleRequest) : Principle :=
  { id := p.id
    label_name := u.label_name.getD p.label_name
    definition := u.definition.getD p.definition
    inclusion_criteria := u.inclusion_criteria.getD p.inclusion_criteria
    exclusion_criteria := u.exclusion_criteria.getD p.exclusion_criteria }

/-- Optimistic update of the `["principles"]` cache entry performed by
`usePrincipleMutations.updatePrinciple.onMutate`:
`queryClient.setQueryData(["principles"], old => old ? old.map(p => p.id === id ? {...p, ...updates} : p) : old)`. -/
def updatePrincipleOptimistic (id : Nat) (u : UpdatePrincipleRequest)
    (old : Option (List Principle)) : Option (List Principle) :=
  match old with
  | none => none
  | some l => some (l.map (fun p => if p.id = id then mergeUpdates p u else p))

/-- Commit step of `usePrincipleMutations.updatePrinciple.onSuccess`:
`old.map(p => p.id === response.principle.id ? response.principle : p)`. -/
def updatePrincipleCommit (resp : Principle)
    (old : Option (List Principle)) : Option (List Principle) :=
  match old with
  | none => none
  | some l => some (l.map (fun p => if p.id = resp.id then resp else p))

/-- State of the `["principles"]` cache entry: the cached list (if any)
and whether the entry is flagged stale (`invalidateQueries`). -/
structure PrincipleState where
  cache : Option (List Principle)
  stale : Bool
deriving DecidableEq, Repr

/-- The hook `updatePrinciple.onMutate`: snapshot `previousPrinciples` before the
optimistic write, then apply the optimistic map. Returns the new state and
the rollback context. -/
def updatePrincipleOnMutate (st : PrincipleState) (id : Nat)
    (u : UpdatePrincipleRequest) : PrincipleState × Option (List Principle) :=
  ({ st with cache := updatePrincipleOptimistic id u st.cache }, st.cache)

/-- The hook `updatePrinciple.onError`: `if (context?.previousPrinciples)` restore the
snapshot via `setQueryData` (a JS array, even empty, is truthy, so the guard
is presence of the snapshot). The stale flag is never touched. -/
def updatePrincipleOnError (st : PrincipleState)
    (ctx : Option (List Principle)) : PrincipleState :=
  match ctx with
  | some prev => { st with cache := some prev }
  | none => st

/-- The full failed run of the update-principle mutation:
`onMutate` (optimistic write + snapshot) followed by `onError` (rollback).
No invalidation happens anywhere on this path (`onSettled` is a no-op). -/
def updatePrincipleFailedRun (st : PrincipleState) (id : Nat)
    (u : UpdatePrincipleRequest) : PrincipleState :=
  let (st1, ctx) := updatePrincipleOnMutate st id u
  updatePrincipleOnError st1 ctx

/-- A sample (`DataRow` in `src/types.ts`); fields the cache layer touches,
plus representative payload text. Identity is `id`; `principle_id` is the
foreign key to the owning principle. -/
structure DataRow where
  id : String
  principle_id : Nat
  target : String
  expert_opinion : String
  isRevised : Bool
deriving DecidableEq, Repr

/-- Revision statistics of a partition (`SamplesResponse.stats`). -/
structure Stats where
  total : Nat
  revised : Nat
  percentage : Nat
deriving DecidableEq, Repr

/-- Cached value of one `["samples", principleId, showRevised]` entry
(`SamplesQueryData` in `useSamples.ts`). -/
structure SamplesData where
  samples : List DataRow
  stats : Stats
deriving DecidableEq, Repr

/-- A samples cache key: `(principleId, showRevised)`; the `"samples"`
root of the query key is implicit. -/
abbrev SampleKey := Nat × Bool

/-- The `samples` family of the query cache: entries in cache iteration
order, as `getQueriesData({queryKey: ["samples"]})` enumerates them. -/
abbrev SamplesCache := List (SampleKey × SamplesData)

/-- The call `queryClient.getQueryData(["samples", pid, flag])`: the data of the
entry with exactly that key, if present. -/
def getQueryData (c : SamplesCache) (k : SampleKey) : Option SamplesData :=
  (c.find? (fun e => e.1 = k)).map (fun e => e.2)

/-- The call `queryClient.setQueryData(key, value)` with a direct value: replaces the
entry's data if the key exists, otherwise creates the entry. -/
def setQueryData (c : SamplesCache) (k : SampleKey) (d : SamplesData) :
    SamplesCache :=
  if c.any (fun e => e.1 = k) then
    c.map (fun e => if e.1 = k then (k, d) else e)
  else
    c ++ [(k, d)]

/-- State of the samples cache family: the entries plus the set of keys
currently flagged stale (i.e. scheduled for refetch by `invalidateQueries`). -/
structure SamplesState where
  cache : SamplesCache
  staleKeys : List SampleKey
deriving DecidableEq, Repr

/-- The call `invalidateQueries({queryKey: ["samples", pid]})`: every existing entry
whose key starts with that prefix (both filter flags) is flagged stale. -/
def invalidateSamplesForPrinciple (st : SamplesState) (pid : Nat) :
    SamplesState :=
  { st with
    staleKeys := st.staleKeys ++
      (st.cache.map (fun e => e.1)).filter (fun k => k.1 = pid) }

/-- The call `invalidateQueries({queryKey: ["samples"]})`: every existing entry of the
whole samples family is flagged stale. -/
def invalidateAllSamples (st : SamplesState) : SamplesState :=
  { st with staleKeys := st.staleKeys ++ st.cache.map (fun e => e.1) }

/-- The scan in `updateOpinion.onMutate`: iterate the cached sample queries
in order, return `sample.principle_id` of the first entry whose `samples`
array contains the sample, `none` if no entry does. -/
def findSamplePrincipleId (c : SamplesCache) (id : String) : Option Nat :=
  match c with
  | [] => none
  | e :: rest =>
    match e.2.samples.find? (fun s => s.id = id) with
    | some s => some s.principle_id
    | none => findSamplePrincipleId rest id

/-- Rollback context of the opinion mutation (`MutationContext`):
`previousData` is the snapshot of the `(pid, true)` entry only, and
`principleId` the owning principle found by the cache scan. -/
structure MutationContext where
  previousData : Option SamplesData
  principleId : Option Nat
deriving DecidableEq, Repr

/-- The hook `updateOpinion.onMutate`:
scan the cache for the sample's principle; bail out with an empty context
when it is not found (the JS guard `if (!principleId)` also treats a found
id of `0` as absent, `0` being falsy); otherwise snapshot
`getQueryData(["samples", pid, true])` and optimistically merge the new
opinion into every entry matching the prefix `["samples", pid]`
(`setQueriesData`, which touches both filter flags). -/
def updateOpinionOnMutate (st : SamplesState) (id opinion : String) :
    SamplesState × MutationContext :=
  match findSamplePrincipleId st.cache id with
  | none => (st, ⟨none, none⟩)
  | some pid =>
    if pid = 0 then (st, ⟨none, none⟩)
    else
      let previousData := getQueryData st.cache (pid, true)
      let cache' := st.cache.map (fun e =>
        if e.1.1 = pid then
          (e.1, { e.2 with
            samples := e.2.samples.map (fun s =>
              if s.id = id then { s with expert_opinion := opinion } else s) })
        else e)
      ({ st with cache := cache' }, ⟨previousData, some pid⟩)

/-- The hook `updateOpinion.onError`: `if (context?.principleId && context?.previousData)`
restore the snapshot into the `(pid, true)` entry only (`0` is falsy, so a
principle id of `0` skips the rollback). Stale flags are untouched. -/
def updateOpinionOnError (st : SamplesState) (ctx : MutationContext) :
    SamplesState :=
  match ctx.principleId, ctx.previousData with
  | some pid, some prev =>
    if pid = 0 then st
    else { st with cache := setQueryData st.cache (pid, true) prev }
  | _, _ => st

/-- The hook `updateOpinion.onSuccess`: `if (context?.principleId)` invalidate the
`["samples", pid]` prefix. -/
def updateOpinionOnSuccess (st : SamplesState) (ctx : MutationContext) :
    SamplesState :=
  match ctx.principleId with
  | some pid => if pid = 0 then st else invalidateSamplesForPrinciple st pid
  | none => st

/-- Full failed run of the opinion mutation: optimistic phase then rollback. -/
def updateOpinionFailedRun (st : SamplesState) (id opinion : String) :
    SamplesState :=
  let (st1, ctx) := updateOpinionOnMutate st id opinion
  updateOpinionOnError st1 ctx

/-- The mutation `toggleRevision` has no `onMutate`; its `onError` only logs, so a failed
run leaves the cache state untouched. -/
def toggleRevisionFailedRun (st : SamplesState) : SamplesState := st

/-- The hook `toggleRevision.onSuccess`: invalidate `["samples", response.sample.principle_id]`. -/
def toggleRevisionOnSuccess (st : SamplesState) (response : DataRow) :
    SamplesState :=
  invalidateSamplesForPrinciple st response.principle_id

/-- The mutation `reassignSample` has no `onMutate`; its `onError` only logs, so a failed
run leaves the cache state untouched. -/
def reassignSampleFailedRun (st : SamplesState) : SamplesState := st

/-- The hook `reassignSample.onSuccess`: invalidate the entire `["samples"]` family,
independently of which principles were involved. -/
def reassignSampleOnSuccess (st : SamplesState) : SamplesState :=
  invalidateAllSamples st

/-- State of the debounced opinion editor in `DataRowItem`:
`text` is the `opinionText` local state, `committed` the `row.expert_opinion`
prop the comparisons close over, `pending` the value captured by the live
debounce timer (if one is armed), and `commits` the list of
`onUpdateExpertOpinion` calls issued so far, in order. -/
structure DebounceState where
  text : String
  committed : String
  pending : Option String
  commits : List String
deriving DecidableEq, Repr

/-- Editor state right after render: `opinionText` initialised to
`row.expert_opinion`, no timer armed, no commit issued. -/
def initDebounce (committed : String) : DebounceState :=
  { text := committed, committed := committed, pending := none, commits := [] }

/-- The handler `handleOpinionChange`: set `opinionText` to the new value and call
`debouncedSaveOpinion`, which clears any existing timer and arms a fresh
500 ms timer capturing the new value. -/
def writeOpinion (s : DebounceState) (v : String) : DebounceState :=
  { s with text := v, pending := some v }

/-- The armed timer elapsing: the `setTimeout` callback in
`debouncedSaveOpinion` fires with its captured value and commits it only
`if (opinion !== row.expert_opinion)`; the timer is then spent. -/
def timerFire (s : DebounceState) : DebounceState :=
  match s.pending with
  | none => s
  | some v =>
    { s with
      pending := none
      commits := if v = s.committed then s.commits else s.commits ++ [v] }

/-- The handler `handleSaveOpinion` (blur / Enter-without-Shift): cancel the debounce
timer, then commit `opinionText` immediately
`if (opinionText !== row.expert_opinion)`. -/
def flushOpinion (s : DebounceState) : DebounceState :=
  { s with
    pending := none
    commits := if s.text = s.committed then s.commits else s.commits ++ [s.text] }

/-- The unmount cleanup effect of `DataRowItem`: `clearTimeout` on the
pending timer and nothing else — no commit is issued. -/
def unmountCleanup (s : DebounceState) : DebounceState :=
  { s with pending := none }

/-- A burst of keystrokes: the writes processed in order, each within the
500 ms debounce window of the previous (so the timer never fires in
between). -/
def processBurst (s : DebounceState) (vs : List String) : DebounceState :=
  vs.foldl writeOpinion s

/-- The typed error surfaced by the axios response interceptor
(`ApiErrorType` in `api/client.ts`). -/
inductive ApiErrorType where
  | NETWORK_ERROR
  | TIMEOUT_ERROR
  | AUTH_ERROR
  | VALIDATION_ERROR
  | SERVER_ERROR
  | NOT_FOUND
  | FORBIDDEN
  | RATE_LIMIT
  | UNKNOWN
deriving DecidableEq, Repr

/-- The shape of a raw axios failure as the response interceptor inspects
it: whether a response arrived, whether a request was sent, the HTTP
status and content type of the response (when present), and the transport
error code / message fragments (when absent). -/
structure RawAxiosError where
  hasResponse : Bool
  hasRequest : Bool
  status : Nat
  htmlContentType : Bool
  code : Option String
  messageHasTimeout : Bool
  messageHasNetworkError : Bool
deriving DecidableEq, Repr

/-- The enhanced error fields the interceptor attaches:
`(errorType, isRetryable)`. -/
abbrev EnhancedError := ApiErrorType × Bool

/-- The interceptor's "NETWORK & CONNECTION ERRORS" section (request made,
no response received): distinguishes timeout, network/connection-refused,
DNS-resolution and other transport errors. -/
def classifyNoResponse (code : Option String)
    (messageHasTimeout messageHasNetworkError : Bool) : EnhancedError :=
  if code = some "ECONNABORTED" ∨ messageHasTimeout = true then
    (ApiErrorType.TIMEOUT_ERROR, true)
  else if code = some "ERR_NETWORK" ∨ code = some "ERR_CONNECTION_REFUSED"
      ∨ messageHasNetworkError = true then
    (ApiErrorType.NETWORK_ERROR, true)
  else if code = some "ERR_NAME_NOT_RESOLVED" then
    (ApiErrorType.NETWORK_ERROR, false)
  else
    (ApiErrorType.NETWORK_ERROR, true)

/-- The interceptor's `switch (status)` over HTTP error responses. -/
def classifyStatus (status : Nat) : EnhancedError :=
  if status = 401 then (ApiErrorType.AUTH_ERROR, false)
  else if status = 403 then (ApiErrorType.FORBIDDEN, false)
  else if status = 404 then (ApiErrorType.NOT_FOUND, false)
  else if status = 422 then (ApiErrorType.VALIDATION_ERROR, false)
  else if status = 429 then (ApiErrorType.RATE_LIMIT, true)
  else if status = 503 then (ApiErrorType.SERVER_ERROR, true)
  else if status = 500 ∨ status = 502 ∨ status = 504 then
    (ApiErrorType.SERVER_ERROR, true)
  else (ApiErrorType.UNKNOWN, false)

/-- The interceptor's "HTTP ERROR RESPONSES" section: HTML bodies
short-circuit to a non-retryable server error, otherwise the status
switch decides. -/
def classifyResponse (htmlContentType : Bool) (status : Nat) : EnhancedError :=
  if htmlContentType then (ApiErrorType.SERVER_ERROR, false)
  else classifyStatus status

/-- The response interceptor's error classifier (`api/client.ts`,
rejection handler): no-response failures, HTTP error responses, and
request-setup errors (neither response nor request). -/
def classifyError (e : RawAxiosError) : EnhancedError :=
  if e.hasResponse = false ∧ e.hasRequest = true then
    classifyNoResponse e.code e.messageHasTimeout e.messageHasNetworkError
  else if e.hasResponse = true then
    classifyResponse e.htmlContentType e.status
  else
    (ApiErrorType.UNKNOWN, false)

/-- The `App.tsx` query-client configuration: `queries: { retry: 2 }`. -/
def queryRetryLimit : Nat := 2

/-- The `App.tsx` query-client configuration: `mutations: { retry: 1 }`. -/
def mutationRetryLimit : Nat := 1

/-- TanStack Query's numeric retry rule: after a failure, retry exactly
when the number of failures so far is below the configured limit. The
rule inspects only the count — a numeric `retry` ignores the error. -/
def shouldRetryNumeric (limit failureCount : Nat)
    (_e : EnhancedError) : Bool :=
  failureCount < limit

/-- Number of network attempts issued for one call under a numeric retry
limit, where `outcome i = none` means attempt `i` succeeds and
`outcome i = some e` means it fails with error `e`. One attempt is always
issued; each failure consumes one unit of the remaining retry budget. -/
def attemptsIssued (outcome : Nat → Option EnhancedError) :
    Nat → Nat → Nat
  | 0, _ => 1
  | limit + 1, i =>
    match outcome i with
    | none => 1
    | some _ => 1 + attemptsIssued outcome limit (i + 1)

/-- Attempts issued per user-initiated `mutate` call (writes). -/
def mutationAttempts (outcome : Nat → Option EnhancedError) : Nat :=
  attemptsIssued outcome mutationRetryLimit 0

/-- Attempts issued per read fetch. -/
def queryAttempts (outcome : Nat → Option EnhancedError) : Nat :=
  attemptsIssued outcome queryRetryLimit 0

/-! ### Helper lemmas -/

/-- A burst never issues a commit by itself: `writeOpinion` only moves the
pending slot and the visible text. -/
lemma processBurst_commits (vs : List String) (s : DebounceState) :
    (processBurst s vs).commits = s.commits := by
  induction vs generalizing s with
  | nil => rfl
  | cons v vs ih => simpa [processBurst, writeOpinion] using ih _

/-- A burst leaves the closed-over `row.expert_opinion` untouched. -/
lemma processBurst_committed (vs : List String) (s : DebounceState) :
    (processBurst s vs).committed = s.committed := by
  induction vs generalizing s with
  | nil => rfl
  | cons v vs ih => simpa [processBurst, writeOpinion] using ih _

/-- Appending one more write to a burst is `writeOpinion` of the burst. -/
lemma processBurst_append (s : DebounceState) (vs : List String) (v : String) :
    processBurst s (vs ++ [v]) = writeOpinion (processBurst s vs) v := by
  simp [processBurst]

/-! ### C9: idempotent commit -/

/-- C9. Applying the update-principle commit step twice with the same server
result yields the same `["principles"]` cache entry as applying it once. -/
theorem C9_commit_idempotent (resp : Principle)
    (old : Option (List Principle)) :
    updatePrincipleCommit resp (updatePrincipleCommit resp old) =
      updatePrincipleCommit resp old := by
  cases old with
  | none => rfl
  | some l =>
    simp only [updatePrincipleCommit, Option.some.injEq]
    induction l with
    | nil => rfl
    | cons p l ih =>
      simp only [List.map_cons, List.cons.injEq]
      refine ⟨?_, ih⟩
      by_cases h : p.id = resp.id <;> simp [h]

/-! ### C2: writes are auto-retried once, not never -/

/-- C2 counterexample. With the query client's `mutations: { retry: 1 }`, a
write whose network call keeps failing is issued twice per `mutate` call,
not exactly once: the first failure is automatically re-issued. -/
theorem C2_counterexample :
    mutationAttempts (fun _ => some (ApiErrorType.SERVER_ERROR, true)) = 2 ∧
      (2 : Nat) ≠ 1 := by
  constructor
  · rfl
  · decide

/-- C2 (amended). Writes are automatically retried exactly once, regardless
of failure kind: a `mutate` call issues one network attempt when the first
attempt succeeds and exactly two attempts when it fails, never more. -/
theorem C2_mutation_retried_once (outcome : Nat → Option EnhancedError) :
    mutationAttempts outcome =
      if (outcome 0).isNone then 1 else 2 := by
  simp only [mutationAttempts, mutationRetryLimit, attemptsIssued]
  cases h : outcome 0 <;> simp [h, attemptsIssued]

/-! ### C4: reads retry regardless of failure kind -/

/-- A 404 response as the axios interceptor sees it. -/
def raw404 : RawAxiosError :=
  { hasResponse := true, hasRequest := true, status := 404
    htmlContentType := false, code := none
    messageHasTimeout := false, messageHasNetworkError := false }

/-- C4 counterexample. A `NOT_FOUND` failure — a non-retryable 4xx kind that
the claim says surfaces immediately — is classified non-retryable by the
interceptor, yet the query client's unconditional `queries: { retry: 2 }`
still issues three attempts for it. -/
theorem C4_counterexample :
    classifyError raw404 = (ApiErrorType.NOT_FOUND, false) ∧
      queryAttempts (fun _ => some (classifyError raw404)) = 3 ∧
      (3 : Nat) ≠ 1 := by
  refine ⟨by decide, rfl, by decide⟩

/-- C4 (amended). Reads are retried up to twice, but unconditionally: the
numeric retry limit inspects only the failure count, so every failure kind
— retryable or not — is retried up to two times, and at most three network
attempts are issued per read. -/
theorem C4_reads_retry_unconditionally (outcome : Nat → Option EnhancedError) :
    queryAttempts outcome =
      (if (outcome 0).isNone then 1
       else if (outcome 1).isNone then 2 else 3) ∧
      queryAttempts outcome ≤ 3 := by
  have h : queryAttempts outcome =
      (if (outcome 0).isNone then 1
       else if (outcome 1).isNone then 2 else 3) := by
    simp only [queryAttempts, queryRetryLimit, attemptsIssued]
    cases h0 : outcome 0 <;> cases h1 : outcome 1 <;>
      simp [h0, h1, attemptsIssued]
  refine ⟨h, ?_⟩
  rw [h]
  split <;> [decide; skip]
  split <;> decide

/-! ### C3: teardown cancels the pending edit without committing -/

/-- C3 counterexample. With last committed value `"A"`, after a single
keystroke writing `"B"` the pending value `"B"` differs from the committed
value, yet unmounting issues no commit: the claim's required commit call
does not happen. -/
theorem C3_counterexample :
    (writeOpinion (initDebounce "A") "B").pending = some "B" ∧
      ("B" : String) ≠ "A" ∧
      (unmountCleanup (writeOpinion (initDebounce "A") "B")).commits = [] := by
  refine ⟨rfl, by decide, rfl⟩

/-- C3 (amended). On teardown the pending debounce timer is cancelled
without invoking the commit function: even when the pending value differs
from the last committed value, the unmount cleanup clears the timer and
issues no commit, so an uncommitted keystroke burst is dropped unless a
blur or Enter flush happened first. -/
theorem C3_unmount_cancels_without_commit (s : DebounceState) (v : String)
    (_hp : s.pending = some v) (_hne : v ≠ s.committed) :
    (unmountCleanup s).commits = s.commits ∧
      (unmountCleanup s).pending = none := by
  exact ⟨rfl, rfl⟩

/-- Witness for `C3_unmount_cancels_without_commit` at a concrete state. -/
theorem C3_unmount_witness :
    (unmountCleanup (writeOpinion (initDebounce "A") "B")).commits =
        (writeOpinion (initDebounce "A") "B").commits ∧
      (unmountCleanup (writeOpinion (initDebounce "A") "B")).pending = none :=
  C3_unmount_cancels_without_commit (writeOpinion (initDebounce "A") "B") "B"
    rfl (by decide)

/-! ### C5: coalescing -/

/-- C5 counterexample. A burst of two keystrokes `"B"` then `"A"` over a
committed value `"A"`: when the timer elapses the last value equals the
committed one, so zero commits occur — not exactly one carrying `"A"`. -/
theorem C5_counterexample :
    (timerFire (processBurst (initDebounce "A") ["B", "A"])).commits = [] := by
  decide

/-- C5 (amended). Coalescing issues at most one commit per burst: the timer
elapsing after a burst commits exactly the last written value when it
differs from the last committed value and nothing otherwise — never an
intermediate value; a blur or Enter-without-Shift flush cancels the timer
and does the same comparison-guarded commit immediately. -/
theorem C5_coalescing (committed : String) (vs : List String) (v : String) :
    (timerFire (processBurst (initDebounce committed) (vs ++ [v]))).commits =
        (if v = committed then [] else [v]) ∧
      (flushOpinion (processBurst (initDebounce committed) (vs ++ [v]))).commits =
        (if v = committed then [] else [v]) ∧
      (timerFire (processBurst (initDebounce committed) (vs ++ [v]))).pending =
        none ∧
      (flushOpinion (processBurst (initDebounce committed) (vs ++ [v]))).pending =
        none := by
  have hb := processBurst_append (initDebounce committed) vs v
  have hc := processBurst_commits vs (initDebounce committed)
  have hm := processBurst_committed vs (initDebounce committed)
  simp only [initDebounce] at hc hm
  rw [hb]
  simp [timerFire, flushOpinion, writeOpinion, initDebounce, hc, hm]

/-! ### C6: cross-partition invalidation on reassignment -/

/-- C6. After a successful reassignment, every cached partition of the
`(samples, *, *)` family is flagged stale; in particular, for any two
distinct principles `A` and `B` with cached partitions, both partitions
are flagged, for any filter flags. -/
theorem C6_reassign_invalidates_all (st : SamplesState) (A B : Nat)
    (fA fB : Bool) (_hAB : A ≠ B)
    (hA : (A, fA) ∈ st.cache.map Prod.fst)
    (hB : (B, fB) ∈ st.cache.map Prod.fst) :
    ((A, fA) ∈ (reassignSampleOnSuccess st).staleKeys ∧
      (B, fB) ∈ (reassignSampleOnSuccess st).staleKeys) ∧
      ∀ k ∈ st.cache.map Prod.fst,
        k ∈ (reassignSampleOnSuccess st).staleKeys := by
  have hall : ∀ k ∈ st.cache.map Prod.fst,
      k ∈ (reassignSampleOnSuccess st).staleKeys := by
    intro k hk
    simp only [reassignSampleOnSuccess, invalidateAllSamples, List.mem_append]
    exact Or.inr hk
  exact ⟨⟨hall _ hA, hall _ hB⟩, hall⟩

/-- Witness for `C6_reassign_invalidates_all` at a concrete two-principle
cache state. -/
theorem C6_reassign_witness :
    ((1, true) ∈ (reassignSampleOnSuccess
        ⟨[((1, true), ⟨[], ⟨0, 0, 0⟩⟩), ((2, false), ⟨[], ⟨0, 0, 0⟩⟩)],
          []⟩).staleKeys ∧
      (2, false) ∈ (reassignSampleOnSuccess
        ⟨[((1, true), ⟨[], ⟨0, 0, 0⟩⟩), ((2, false), ⟨[], ⟨0, 0, 0⟩⟩)],
          []⟩).staleKeys) ∧
      ∀ k ∈ ([((1, true), (⟨[], ⟨0, 0, 0⟩⟩ : SamplesData)),
          ((2, false), ⟨[], ⟨0, 0, 0⟩⟩)] : SamplesCache).map Prod.fst,
        k ∈ (reassignSampleOnSuccess
          ⟨[((1, true), ⟨[], ⟨0, 0, 0⟩⟩), ((2, false), ⟨[], ⟨0, 0, 0⟩⟩)],
            []⟩).staleKeys :=
  C6_reassign_invalidates_all
    ⟨[((1, true), ⟨[], ⟨0, 0, 0⟩⟩), ((2, false), ⟨[], ⟨0, 0, 0⟩⟩)], []⟩
    1 2 true false (by decide) (by decide) (by decide)

/-! ### C7: a failed mutation never marks anything stale -/

/-- C7. On every failure path of every mutation — update principle, update
opinion, toggle revision, reassign sample — no cache key is flagged for
refetch: the stale flags after the failed run equal those before it. -/
theorem C7_failed_mutation_marks_nothing_stale :
    (∀ (pst : PrincipleState) (i : Nat) (u : UpdatePrincipleRequest),
        (updatePrincipleFailedRun pst i u).stale = pst.stale) ∧
      (∀ (st : SamplesState) (id opinion : String),
        (updateOpinionFailedRun st id opinion).staleKeys = st.staleKeys) ∧
      (∀ st : SamplesState,
        (toggleRevisionFailedRun st).staleKeys = st.staleKeys) ∧
      (∀ st : SamplesState,
        (reassignSampleFailedRun st).staleKeys = st.staleKeys) := by
  refine ⟨?_, ?_, fun _ => rfl, fun _ => rfl⟩
  · intro pst i u
    cases h : pst.cache <;>
      simp [updatePrincipleFailedRun, updatePrincipleOnMutate,
        updatePrincipleOnError, h]
  · intro st id opinion
    simp only [updateOpinionFailedRun, updateOpinionOnMutate]
    cases h : findSamplePrincipleId st.cache id with
    | none => simp [updateOpinionOnError]
    | some pid =>
      by_cases hz : pid = 0
      · simp [hz, updateOpinionOnError]
      · simp only [hz, if_false]
        cases hprev : getQueryData st.cache (pid, true) <;>
          simp [updateOpinionOnError, hprev, hz, setQueryData]

/-! ### C8: retryability flags -/

/-- A DNS-resolution failure as the axios interceptor sees it: a request
was sent, no response arrived, code `ERR_NAME_NOT_RESOLVED`. -/
def rawDnsError : RawAxiosError :=
  { hasResponse := false, hasRequest := true, status := 0
    htmlContentType := false, code := some "ERR_NAME_NOT_RESOLVED"
    messageHasTimeout := false, messageHasNetworkError := false }

/-- A timeout as the axios interceptor sees it: code `ECONNABORTED`. -/
def rawTimeoutError : RawAxiosError :=
  { hasResponse := false, hasRequest := true, status := 0
    htmlContentType := false, code := some "ECONNABORTED"
    messageHasTimeout := true, messageHasNetworkError := false }

/-- The no-response branch flags every timeout classification retryable. -/
lemma classifyNoResponse_timeout_retryable (c : Option String) (mt mn : Bool)
    (h : (classifyNoResponse c mt mn).1 = ApiErrorType.TIMEOUT_ERROR) :
    (classifyNoResponse c mt mn).2 = true := by
  unfold classifyNoResponse at h ⊢
  split_ifs at h ⊢
  simp_all

/-- The response branch never classifies a timeout, so the implication
holds there as well. -/
lemma classifyResponse_timeout_retryable (html : Bool) (st : Nat)
    (h : (classifyResponse html st).1 = ApiErrorType.TIMEOUT_ERROR) :
    (classifyResponse html st).2 = true := by
  unfold classifyResponse classifyStatus at h ⊢
  split_ifs at h ⊢

/-- The no-response branch never classifies a rate limit. -/
lemma classifyNoResponse_ratelimit_retryable (c : Option String) (mt mn : Bool)
    (h : (classifyNoResponse c mt mn).1 = ApiErrorType.RATE_LIMIT) :
    (classifyNoResponse c mt mn).2 = true := by
  unfold classifyNoResponse at h ⊢
  split_ifs at h ⊢

/-- The response branch flags every 429 classification retryable. -/
lemma classifyResponse_ratelimit_retryable (html : Bool) (st : Nat)
    (h : (classifyResponse html st).1 = ApiErrorType.RATE_LIMIT) :
    (classifyResponse html st).2 = true := by
  unfold classifyResponse classifyStatus at h ⊢
  split_ifs at h ⊢
  simp_all

/-- The no-response branch is retryable for every code other than
`ERR_NAME_NOT_RESOLVED`. -/
lemma classifyNoResponse_retryable_unless_dns (c : Option String)
    (mt mn : Bool) (h : c ≠ some "ERR_NAME_NOT_RESOLVED") :
    (classifyNoResponse c mt mn).2 = true := by
  unfold classifyNoResponse
  split_ifs <;> simp_all

/-- C8 counterexample. A DNS-resolution failure is a no-response
network/connection failure, classified `NETWORK_ERROR`, yet the
interceptor flags it `isRetryable: false` — not `true` as claimed. -/
theorem C8_counterexample :
    (classifyError rawDnsError).1 = ApiErrorType.NETWORK_ERROR ∧
      (classifyError rawDnsError).2 = false := by
  decide

/-- C8 (amended). Every failure classified `TIMEOUT_ERROR` or `RATE_LIMIT`
is flagged `isRetryable: true`, and every no-response failure is flagged
`isRetryable: true` except DNS-resolution failures (`ERR_NAME_NOT_RESOLVED`
with no timeout/network-error message), which are classified
`NETWORK_ERROR` with `isRetryable: false`. -/
theorem C8_retryable_flags (e : RawAxiosError) :
    ((classifyError e).1 = ApiErrorType.TIMEOUT_ERROR →
        (classifyError e).2 = true) ∧
      ((classifyError e).1 = ApiErrorType.RATE_LIMIT →
        (classifyError e).2 = true) ∧
      (e.hasResponse = false → e.hasRequest = true →
        e.code ≠ some "ERR_NAME_NOT_RESOLVED" → (classifyError e).2 = true) ∧
      (e.hasResponse = false → e.hasRequest = true →
        e.code = some "ERR_NAME_NOT_RESOLVED" → e.messageHasTimeout = false →
        e.messageHasNetworkError = false →
        classifyError e = (ApiErrorType.NETWORK_ERROR, false)) := by
  refine ⟨?_, ?_, ?_, ?_⟩
  · unfold classifyError
    split_ifs
    · exact classifyNoResponse_timeout_retryable _ _ _
    · exact classifyResponse_timeout_retryable _ _
    · decide
  · unfold classifyError
    split_ifs
    · exact classifyNoResponse_ratelimit_retryable _ _ _
    · exact classifyResponse_ratelimit_retryable _ _
    · decide
  · intro h1 h2 h3
    have hrw : classifyError e =
        classifyNoResponse e.code e.messageHasTimeout e.messageHasNetworkError := by
      simp [classifyError, h1, h2]
    rw [hrw]
    exact classifyNoResponse_retryable_unless_dns _ _ _ h3
  · intro h1 h2 h3 h4 h5
    have hrw : classifyError e =
        classifyNoResponse e.code e.messageHasTimeout e.messageHasNetworkError := by
      simp [classifyError, h1, h2]
    rw [hrw, h3, h4, h5]
    decide

/-- Witness for `C8_retryable_flags`: a timeout is flagged retryable, a
DNS-resolution failure is a non-retryable `NETWORK_ERROR`. -/
theorem C8_retryable_witness :
    (classifyError rawTimeoutError).2 = true ∧
      classifyError rawDnsError = (ApiErrorType.NETWORK_ERROR, false) :=
  ⟨(C8_retryable_flags rawTimeoutError).1 (by decide),
    (C8_retryable_flags rawDnsError).2.2.2 rfl rfl rfl rfl rfl⟩

/-! ### C10: frame property of the update-principle mutation -/

/-- C10. Both the optimistic apply and the commit step of the
update-principle mutation are element-wise maps over the cached list:
an absent cache stays absent, the list length is preserved, and every
position holding a principle whose id is not the targeted one is left
unchanged. -/
theorem C10_update_frame (i : Nat) (u : UpdatePrincipleRequest)
    (resp : Principle) (l : List Principle) (k : Nat)
    (hk : k < l.length) (hne₁ : l[k].id ≠ i) (hne₂ : l[k].id ≠ resp.id) :
    updatePrincipleOptimistic i u none = none ∧
      updatePrincipleCommit resp none = none ∧
      (updatePrincipleOptimistic i u (some l)).map List.length =
        some l.length ∧
      (updatePrincipleCommit resp (some l)).map List.length =
        some l.length ∧
      (updatePrincipleOptimistic i u (some l)).bind (fun l₁ => l₁[k]?) =
        some l[k] ∧
      (updatePrincipleCommit resp (some l)).bind (fun l₂ => l₂[k]?) =
        some l[k] := by
  refine ⟨rfl, rfl, by simp [updatePrincipleOptimistic],
    by simp [updatePrincipleCommit], ?_, ?_⟩
  · simp [updatePrincipleOptimistic, List.getElem?_eq_getElem hk,
      List.getElem?_map, hne₁]
  · simp [updatePrincipleCommit, List.getElem?_eq_getElem hk,
      List.getElem?_map, hne₂]

/-- Witness for `C10_update_frame` at a concrete two-principle cache. -/
theorem C10_update_frame_witness :
    updatePrincipleOptimistic 2 ⟨some "x", none, none, none⟩ none = none ∧
      updatePrincipleCommit ⟨2, "b2", "d", "i", "e"⟩ none = none ∧
      (updatePrincipleOptimistic 2 ⟨some "x", none, none, none⟩
          (some [⟨1, "a", "d", "i", "e"⟩, ⟨2, "b", "d", "i", "e"⟩])).map
          List.length =
        some ([⟨1, "a", "d", "i", "e"⟩,
          ⟨2, "b", "d", "i", "e"⟩] : List Principle).length ∧
      (updatePrincipleCommit ⟨2, "b2", "d", "i", "e"⟩
          (some [⟨1, "a", "d", "i", "e"⟩, ⟨2, "b", "d", "i", "e"⟩])).map
          List.length =
        some ([⟨1, "a", "d", "i", "e"⟩,
          ⟨2, "b", "d", "i", "e"⟩] : List Principle).length ∧
      (updatePrincipleOptimistic 2 ⟨some "x", none, none, none⟩
          (some [⟨1, "a", "d", "i", "e"⟩, ⟨2, "b", "d", "i", "e"⟩])).bind
          (fun l₁ => l₁[0]?) =
        some (⟨1, "a", "d", "i", "e"⟩ : Principle) ∧
      (updatePrincipleCommit ⟨2, "b2", "d", "i", "e"⟩
          (some [⟨1, "a", "d", "i", "e"⟩, ⟨2, "b", "d", "i", "e"⟩])).bind
          (fun l₂ => l₂[0]?) =
        some (⟨1, "a", "d", "i", "e"⟩ : Principle) :=
  C10_update_frame 2 ⟨some "x", none, none, none⟩ ⟨2, "b2", "d", "i", "e"⟩
    [⟨1, "a", "d", "i", "e"⟩, ⟨2, "b", "d", "i", "e"⟩] 0
    (by decide) (by decide) (by decide)

/-! ### C1: rollback of the opinion mutation misses the unfiltered partition -/

/-- The sample of the C1 failing scenario: `s1` owned by principle 1 with
expert opinion `"A"`. -/
def c1Sample : DataRow :=
  { id := "s1", principle_id := 1, target := "t"
    expert_opinion := "A", isRevised := false }

/-- Cached partition data holding just `c1Sample`. -/
def c1Data : SamplesData := { samples := [c1Sample], stats := ⟨1, 0, 0⟩ }

/-- The C1 failing cache state: both filter partitions of principle 1 are
cached, `(samples, 1, true)` and `(samples, 1, false)`, each holding `s1`. -/
def c1State : SamplesState :=
  { cache := [((1, true), c1Data), ((1, false), c1Data)], staleKeys := [] }

/-- C1. Evaluating the opinion mutation's failure path at the failing
input: mutating `s1`'s opinion to `"AB"` optimistically touches both
partitions of principle 1, but after the network failure the rollback
restores only the `(samples, 1, true)` entry — the `(samples, 1, false)`
entry keeps the optimistic value `"AB"` instead of its prior value, so the
claimed rollback equality fails for the filter-false partition. -/
theorem C1_opinion_rollback_divergence :
    getQueryData (updateOpinionFailedRun c1State "s1" "AB").cache (1, false) ≠
        getQueryData c1State.cache (1, false) ∧
      getQueryData (updateOpinionFailedRun c1State "s1" "AB").cache (1, true) =
        getQueryData c1State.cache (1, true) ∧
      getQueryData (updateOpinionFailedRun c1State "s1" "AB").cache (1, false) =
        some { samples := [{ c1Sample with expert_opinion := "AB" }]
               stats := ⟨1, 0, 0⟩ } := by
  refine ⟨by decide, by decide, by decide⟩

end FHITL
